import Mathlib

/-!
Shallow embedding of the control/coordination core of the `swarms`
repository: the `Flow` autonomous loop (`swarms/structs/flow.py`) and the
`GodMode` broadcast executor (`swarms/swarms/god_mode.py`), together with
theorems settling the specification claims about them.

Modelling conventions:
* Python exceptions are values of `PyException`; a function that can raise
  returns `Except PyException _`.
* The language model `self.llm` is an oracle `llm : Nat → String → Option String`
  giving the outcome of the k-th call on a prompt (`none` = the call raises,
  matching the `except Exception` arm of the retry loop). Interactive
  `input()` calls are an oracle `inputs : Nat → String`.
* `time.sleep`, logging and `print` calls have no modelled effect.
* `max_loops` is modelled as a `Nat`; the `"auto"` sentinel (an unbounded
  loop) is outside the embedded fragment — every claim quantifies over
  finite `maxLoops`.
* In `Flow.__init__`, the assignment `self.dynamic_temperature = dynamic_temperature`
  stores a `bool` in the instance attribute that shadows the *method*
  `Flow.dynamic_temperature` (functions are non-data descriptors, so the
  instance attribute wins).  Hence in `run`, when the flag is true,
  `self.dynamic_temperature()` calls a `bool` and raises
  `TypeError: 'bool' object is not callable`.  The embedding reflects this
  with `PyException.typeError`.
* Checkpoint files are modelled by the value written/read (`FlowStateDoc`);
  the JSON round trip of a list of lists of strings is faithful.
-/

namespace Swarms

/-- Python exceptions that the embedded fragment can raise. -/
inductive PyException where
  | typeError
  | attributeError
  | indexError
  | exn (msg : String)
deriving DecidableEq, Repr

/-- The mutable attributes of a `Flow` instance that the embedded operations
read or write (from `Flow.__init__`, `flow.py` lines 138-186).  The field
`reponse_filters` (sic) models the attribute name used by
`add_response_filter`; it is an `Option` because `__init__` never creates it
(`none` = attribute absent, so reading it raises `AttributeError`). -/
structure Flow where
  max_loops : Nat
  stopping_condition : Option (String → Bool)
  loop_interval : Nat
  retry_attempts : Nat
  retry_interval : Nat
  return_history : Bool
  stopping_token : Option String
  interactive : Bool
  dashboard : Bool
  dynamic_temperature : Bool
  user_name : String
  memory : List (List String)
  response_filters : List String
  reponse_filters : Option (List String)

/-- `Flow.__init__` with the constructor's defaultable parameters: it seeds
`feedback`/`memory` empty, sets `response_filters = []`, and never creates
the misspelled `reponse_filters` attribute. -/
def Flow.init (max_loops : Nat) (stopping_condition : Option (String → Bool))
    (loop_interval retry_attempts retry_interval : Nat) (return_history : Bool)
    (stopping_token : Option String) (interactive dashboard dynamic_temperature : Bool)
    (user_name : String) : Flow :=
  { max_loops := max_loops
    stopping_condition := stopping_condition
    loop_interval := loop_interval
    retry_attempts := retry_attempts
    retry_interval := retry_interval
    return_history := return_history
    stopping_token := stopping_token
    interactive := interactive
    dashboard := dashboard
    dynamic_temperature := dynamic_temperature
    user_name := user_name
    memory := []
    response_filters := []
    reponse_filters := none }

/-- Whether the first list is a prefix of the second. -/
def prefixOfList (pat l : List Char) : Bool :=
  match pat, l with
  | [], _ => true
  | _ :: _, [] => false
  | a :: as, b :: bs => a == b && prefixOfList as bs

/-- Whether the first list occurs contiguously inside the second: the
semantics of Python's substring test `pat in s`. -/
def infixOfList (pat : List Char) : List Char → Bool
  | [] => prefixOfList pat []
  | b :: bs => prefixOfList pat (b :: bs) || infixOfList pat bs

/-- `parse_done_token` (`flow.py` lines 93-95): `"<DONE>" in response`. -/
def parse_done_token (response : String) : Bool :=
  infixOfList "<DONE>".toList response.toList

/-- `Flow._check_stopping_condition` (`flow.py` lines 193-195):
`self.stopping_condition(response) if self.stopping_condition else False`. -/
def Flow.check_stopping_condition (f : Flow) (response : String) : Bool :=
  match f.stopping_condition with
  | some cond => cond response
  | none => false

/-- Python truthiness of `self.stopping_token`: `None` and the empty string
are falsy, any other string is truthy. -/
def Flow.stoppingTokenTruthy (f : Flow) : Bool :=
  match f.stopping_token with
  | some s => !(s == "")
  | none => false

/-- The `FLOW_SYSTEM_PROMPT` constant (`flow.py` lines 19-28). -/
def FLOW_SYSTEM_PROMPT : String :=
  "\nYou are an autonomous agent granted autonomy in a autonomous loop structure.\nYour role is to engage in multi-step conversations with your self or the user,\ngenerate long-form content like blogs, screenplays, or SOPs,\nand accomplish tasks bestowed by the user. \n\nYou can have internal dialogues with yourself or can interact with the user\nto aid in these complex tasks. Your responses should be coherent, contextually relevant, and tailored to the task at hand.\n\n"

/-- `Flow.agent_history_prompt` (`flow.py` lines 545-565): the f-string
built from the system prompt and the current response (passed as `history`).
`run` always passes the non-empty `FLOW_SYSTEM_PROMPT`, so the
`system_prompt or self.system_prompt` fallback keeps the argument. -/
def agent_history_prompt (system_prompt history : String) : String :=
  "\n            SYSTEM_PROMPT: " ++ system_prompt ++
    "\n\n            History: " ++ history ++ "\n        "

/-- The loop-local mutable variables of `Flow.run`, plus ghost counters for
the number of `self.llm(...)` calls made and `input()` prompts consumed. -/
structure RunState where
  response : String
  history : List String
  calls : Nat
  inputsUsed : Nat
deriving Repr

/-- The inner retry loop of `Flow.run` (`flow.py` lines 429-453):
`while attempt < self.retry_attempts`, try `self.llm(task)`; on success
record the `AI:` turn (and in interactive mode solicit a human turn that
becomes the new `response`) and `break`; on an exception increment `attempt`
and retry.  The `fuel` argument is `retry_attempts - attempt`.  When every
attempt raises, the loop falls through leaving `response` and `history`
untouched. -/
def attemptLoop (interactive : Bool) (llm : Nat → String → Option String)
    (inputs : Nat → String) (prompt : String) : Nat → RunState → RunState
  | 0, st => st
  | fuel + 1, st =>
    match llm st.calls prompt with
    | some r =>
      if interactive then
        let u := inputs st.inputsUsed
        { response := u
          history := st.history ++ ["AI: " ++ r, "Human: " ++ u]
          calls := st.calls + 1
          inputsUsed := st.inputsUsed + 1 }
      else
        { st with
            response := r
            history := st.history ++ ["AI: " ++ r]
            calls := st.calls + 1 }
    | none => attemptLoop interactive llm inputs prompt fuel { st with calls := st.calls + 1 }

/-- The outer `while` loop of `Flow.run` (`flow.py` lines 411-455), with
`fuel = max_loops - loop_count`.  Per iteration: (1) if `self.stopping_token`
is truthy, break when the stopping condition holds or `"<DONE>"` occurs in
`response`; (2) if `self.dynamic_temperature` is truthy, the call
`self.dynamic_temperature()` raises `TypeError` (the bool attribute shadows
the method); (3) build the prompt, run the retry loop, and afterwards append
`response` to `history` once more (line 454) regardless of the retry
outcome. -/
def runLoop (f : Flow) (llm : Nat → String → Option String)
    (inputs : Nat → String) : Nat → RunState → Except PyException RunState
  | 0, st => .ok st
  | fuel + 1, st =>
    if f.stoppingTokenTruthy &&
        (f.check_stopping_condition st.response || parse_done_token st.response) then
      .ok st
    else if f.dynamic_temperature then
      .error .typeError
    else
      let prompt := agent_history_prompt FLOW_SYSTEM_PROMPT st.response
      let st1 := attemptLoop f.interactive llm inputs prompt f.retry_attempts st
      let st2 := { st1 with history := st1.history ++ [st1.response] }
      runLoop f llm inputs fuel st2

/-- `Flow.run` (`flow.py` lines 381-463): seed `response := task` and
`history := [f"{self.user_name}: {task}"]`, run the loop, and on normal exit
append the finished `history` to `self.memory`.  The result carries the
post-state `Flow` and the final `RunState` (whose `response`/`history` make
up the Python return value `(response, history)`). -/
def Flow.run (f : Flow) (llm : Nat → String → Option String)
    (inputs : Nat → String) (task : String) : Except PyException (Flow × RunState) :=
  let st0 : RunState :=
    { response := task
      history := [f.user_name ++ ": " ++ task]
      calls := 0
      inputsUsed := 0 }
  (runLoop f llm inputs f.max_loops st0).map fun st =>
    ({ f with memory := f.memory ++ [st.history] }, st)

/-- `Flow.undo_last` (`flow.py` lines 699-719).  With fewer than two
sessions it returns `(None, None)` without touching `memory`; otherwise it
pops the most recent session and then reads `self.memory[-1][-1]`.  The
result pairs the post-state `Flow` with the Python return value; reading the
last turn of an empty remaining session raises `IndexError` (after the pop
has already happened, hence the post-state is returned alongside the
exception). -/
def Flow.undo_last (f : Flow) : Flow × Except PyException (Option String × Option String) :=
  if f.memory.length < 2 then (f, .ok (none, none))
  else
    match f.memory.dropLast.getLast? with
    | none => ({ f with memory := f.memory.dropLast }, .error .indexError)
    | some sess =>
      match sess.getLast? with
      | none => ({ f with memory := f.memory.dropLast }, .error .indexError)
      | some previous_state =>
        ({ f with memory := f.memory.dropLast },
          .ok (some previous_state, some ("Restored to " ++ previous_state)))

/-- `Flow.add_response_filter` (`flow.py` lines 722-732): it appends to
`self.reponse_filters` (sic).  When that attribute is absent the lookup
raises `AttributeError` before any mutation, so the state is unchanged (an
`error` result carries no new state and the caller keeps `f`). -/
def Flow.add_response_filter (f : Flow) (filter_word : String) : Except PyException Flow :=
  match f.reponse_filters with
  | none => .error .attributeError
  | some ws => .ok { f with reponse_filters := some (ws ++ [filter_word]) }

/-- `Flow.apply_reponse_filters` (`flow.py` lines 734-742): ordered,
repeated exact-substring replacement with the literal `[FILTERED]` over the
correctly spelled `self.response_filters` list. -/
def Flow.apply_reponse_filters (f : Flow) (response : String) : String :=
  f.response_filters.foldl (fun acc word => acc.replace word "[FILTERED]") response

/-- The JSON document written by `save_state` / read by `load_state`
(`flow.py` lines 816-865): a record of optional fields, `none` meaning the
key is absent from the document (`state.get(key, default)` then yields the
default). -/
structure FlowStateDoc where
  memory : Option (List (List String))
  max_loops : Option Nat
  loop_interval : Option Nat
  retry_attempts : Option Nat
  retry_interval : Option Nat
  interactive : Option Bool
  dashboard : Option Bool
  dynamic_temperature : Option Bool

/-- `Flow.save_state` (`flow.py` lines 816-841): the document holds
`memory`, `loop_interval`, `retry_attempts`, `retry_interval`,
`interactive`, `dashboard` and `dynamic_temperature` — and no `max_loops`
key. -/
def Flow.save_state (f : Flow) : FlowStateDoc :=
  { memory := some f.memory
    max_loops := none
    loop_interval := some f.loop_interval
    retry_attempts := some f.retry_attempts
    retry_interval := some f.retry_interval
    interactive := some f.interactive
    dashboard := some f.dashboard
    dynamic_temperature := some f.dynamic_temperature }

/-- `Flow.load_state` (`flow.py` lines 843-865): each restored field is
`state.get(key, default)` with the hardcoded defaults `[]`, `5`, `1`, `3`,
`1`, `False`; `dashboard` and `dynamic_temperature` are present in saved
documents but never restored, and every unlisted attribute keeps its prior
value. -/
def Flow.load_state (f : Flow) (doc : FlowStateDoc) : Flow :=
  { f with
      memory := doc.memory.getD []
      max_loops := doc.max_loops.getD 5
      loop_interval := doc.loop_interval.getD 1
      retry_attempts := doc.retry_attempts.getD 3
      retry_interval := doc.retry_interval.getD 1
      interactive := doc.interactive.getD false }

/-- The `GodMode` broadcast executor (`god_mode.py` lines 14-51).  Each held
capability maps a task to `Except PyException String` (`error` = the call
raises). -/
structure GodMode where
  llms : List (String → Except PyException String)
  load_balancing : Bool
  retry_attempts : Nat
  last_responses : Option (List String)
  task_history : List String

/-- `GodMode.__init__` (`god_mode.py` lines 41-51). -/
def GodMode.init (llms : List (String → Except PyException String))
    (load_balancing : Bool) (retry_attempts : Nat) : GodMode :=
  { llms := llms
    load_balancing := load_balancing
    retry_attempts := retry_attempts
    last_responses := none
    task_history := [] }

/-- Collection of already-computed future results in iteration order:
`list(executor.map(...))` yields results in submission order and re-raises
the first stored exception when its slot is reached. -/
def collectFutures : List (Except PyException String) → Except PyException (List String)
  | [] => .ok []
  | .ok r :: rest => (collectFutures rest).map (r :: ·)
  | .error e :: _ => .error e

/-- `GodMode.run` (`god_mode.py` lines 53-57):
`executor.map(lambda llm: llm(task), self.llms)` submits every capability
and `list(responses)` collects the results in submission order. -/
def GodMode.run (g : GodMode) (task : String) : Except PyException (List String) :=
  collectFutures (g.llms.map fun llm => llm task)

/-- `GodMode.run_all` (`god_mode.py` lines 69-71): the sequential list
comprehension `[llm(task) for llm in self.llms]` (a raise propagates at the
failing element). -/
def runAllAux (task : String) : List (String → Except PyException String) →
    Except PyException (List String)
  | [] => .ok []
  | llm :: rest =>
    match llm task with
    | .error e => .error e
    | .ok r => (runAllAux task rest).map (r :: ·)

/-- `GodMode.run_all` packaged on the `GodMode` state. -/
def GodMode.run_all (g : GodMode) (task : String) : Except PyException (List String) :=
  runAllAux task g.llms

/-- The `for future in as_completed(...)` aggregation loop of
`GodMode.concurrent_run` (`god_mode.py` lines 142-147): a successful result
is appended to `responses`; a raising one is only printed, leaving no entry. -/
def collectCompleted : List (Except PyException String) → List String
  | [] => []
  | .ok r :: rest => r :: collectCompleted rest
  | .error _ :: rest => collectCompleted rest

/-- `GodMode.concurrent_run` (`god_mode.py` lines 138-150).  The `completed`
argument is the sequence of future results in `as_completed` order — some
permutation of `g.llms.map (fun llm => llm task)`.  The aggregation keeps
only successful results, then records `last_responses` and appends `task` to
`task_history`. -/
def GodMode.concurrent_run (g : GodMode) (completed : List (Except PyException String))
    (task : String) : GodMode × List String :=
  let responses := collectCompleted completed
  ({ g with last_responses := some responses, task_history := g.task_history ++ [task] },
    responses)

/-! Concrete instances used by counterexamples and witnesses. -/

/-- A `Flow` built by the constructor with its default configuration
(`max_loops=5`, `retry_attempts=3`, nothing stopping, non-interactive). -/
def flowBase : Flow :=
  Flow.init 5 none 1 3 1 false none false false false "Human"

/-- A model capability whose every call succeeds with `"ok"`. -/
def llmOk : Nat → String → Option String := fun _ _ => some "ok"

/-- A model capability whose every call raises. -/
def llmFail : Nat → String → Option String := fun _ _ => none

/-- An interactive-input oracle (unused by non-interactive runs). -/
def inputsNone : Nat → String := fun _ => ""

/-! Helper lemmas about the loop of `Flow.run`. -/

theorem attemptLoop_first_success (llm : Nat → String → Option String)
    (inputs : Nat → String) (prompt : String) (fuel : Nat) (st : RunState)
    (r : String) (h : llm st.calls prompt = some r) :
    attemptLoop false llm inputs prompt (fuel + 1) st =
      { st with response := r, history := st.history ++ ["AI: " ++ r], calls := st.calls + 1 } := by
  simp [attemptLoop, h]

theorem attemptLoop_all_fail (interactive : Bool) (llm : Nat → String → Option String)
    (inputs : Nat → String) (prompt : String) (hfail : ∀ k p, llm k p = none) :
    ∀ (fuel : Nat) (st : RunState),
      attemptLoop interactive llm inputs prompt fuel st = { st with calls := st.calls + fuel } := by
  intro fuel
  induction fuel with
  | zero => intro st; rfl
  | succ n ih =>
    intro st
    rw [attemptLoop, hfail, ih]
    have : st.calls + 1 + n = st.calls + (n + 1) := by omega
    rw [this]

theorem runLoop_no_stop_all_success (f : Flow) (llm : Nat → String → Option String)
    (inputs : Nat → String) (hs : f.stoppingTokenTruthy = false)
    (hd : f.dynamic_temperature = false) (hi : f.interactive = false)
    (hr : 0 < f.retry_attempts) (hllm : ∀ k p, (llm k p).isSome) :
    ∀ (fuel : Nat) (st : RunState), ∃ st' : RunState,
      runLoop f llm inputs fuel st = .ok st' ∧
        st'.calls = st.calls + fuel ∧ st'.history.length = st.history.length + 2 * fuel := by
  intro fuel
  induction fuel with
  | zero => intro st; exact ⟨st, rfl, by omega, by omega⟩
  | succ n ih =>
    intro st
    obtain ⟨m, hm⟩ : ∃ m, f.retry_attempts = m + 1 := by
      refine ⟨f.retry_attempts - 1, ?_⟩; omega
    obtain ⟨r, hr1⟩ : ∃ r, llm st.calls (agent_history_prompt FLOW_SYSTEM_PROMPT st.response) = some r := by
      have := hllm st.calls (agent_history_prompt FLOW_SYSTEM_PROMPT st.response)
      exact Option.isSome_iff_exists.mp this
    rw [runLoop, hs]
    simp only [Bool.false_and, Bool.false_eq_true, if_false, hd]
    rw [hm, hi, attemptLoop_first_success llm inputs _ m st r hr1]
    obtain ⟨st', h1, h2, h3⟩ := ih
      { st with
          response := r
          history := (st.history ++ ["AI: " ++ r]) ++ [r]
          calls := st.calls + 1 }
    have h2' : st'.calls = st.calls + 1 + n := h2
    have h3' : st'.history.length = (st.history ++ ["AI: " ++ r] ++ [r]).length + 2 * n := h3
    simp only [List.length_append, List.length_cons, List.length_nil] at h3'
    exact ⟨st', h1, by omega, by omega⟩

/-- C1 (counterexample): with `max_loops = 1`, no stopping configuration,
non-interactive, and a model that succeeds on every call, `run` makes 1 model
invocation but the returned history has 3 turns — `1 + 2·N`, not the claimed
`1 + N = 2` (the loop records the `AI:` turn at line 447 and appends the raw
response again at line 454). -/
theorem run_history_not_one_plus_N :
    ((({ flowBase with max_loops := 1 } : Flow).run llmOk inputsNone "t").map
        (fun (o : Flow × RunState) => (o.2.calls, o.2.history.length))) =
      Except.ok (1, 3) ∧ (1 + 1 : Nat) ≠ 3 :=
  ⟨rfl, by omega⟩

/-- C1 (amended): for positive `N`, a `Flow` with `maxLoops = N`, no
stopping token, no stopping predicate consulted (the gate is off whenever
the token is unset), non-interactive, `retryAttempts ≥ 1`, dynamic
temperature off, and a model whose every call succeeds on the first attempt:
`run(task)` performs exactly `N` model invocations and the returned session
history has exactly `1 + 2·N` turns (one seed `User` turn, plus per
iteration one `AI:`-prefixed agent turn and one duplicate raw-response
entry). -/
theorem run_fixed_loops_two_turns_per_iteration (f : Flow)
    (llm : Nat → String → Option String) (inputs : Nat → String) (task : String)
    (N : Nat) (hN : 0 < N) (hml : f.max_loops = N) (hs : f.stopping_token = none)
    (hd : f.dynamic_temperature = false) (hi : f.interactive = false)
    (hr : 0 < f.retry_attempts) (hllm : ∀ k p, (llm k p).isSome) :
    ∃ out : Flow × RunState, f.run llm inputs task = .ok out ∧
      out.2.calls = N ∧ out.2.history.length = 1 + 2 * N := by
  have hs' : f.stoppingTokenTruthy = false := by
    simp [Flow.stoppingTokenTruthy, hs]
  obtain ⟨st', h1, h2, h3⟩ :=
    runLoop_no_stop_all_success f llm inputs hs' hd hi hr hllm f.max_loops
      { response := task
        history := [f.user_name ++ ": " ++ task]
        calls := 0
        inputsUsed := 0 }
  have h2' : st'.calls = 0 + f.max_loops := h2
  have h3' : st'.history.length = ([f.user_name ++ ": " ++ task] : List String).length + 2 * f.max_loops := h3
  simp only [List.length_cons, List.length_nil] at h3'
  rw [hml] at h2' h3'
  refine ⟨({ f with memory := f.memory ++ [st'.history] }, st'), ?_, ?_, ?_⟩
  · rw [Flow.run, h1]; rfl
  · show st'.calls = N
    omega
  · show st'.history.length = 1 + 2 * N
    omega

/-- C1 (witness): the amended statement instantiated at `N = 3` with the
always-successful model: 3 invocations and a 7-turn history. -/
theorem run_fixed_loops_two_turns_per_iteration_witness :
    ∃ out : Flow × RunState,
      ({ flowBase with max_loops := 3 } : Flow).run llmOk inputsNone "t" = .ok out ∧
        out.2.calls = 3 ∧ out.2.history.length = 1 + 2 * 3 :=
  run_fixed_loops_two_turns_per_iteration { flowBase with max_loops := 3 }
    llmOk inputsNone "t" 3 (by decide) rfl rfl rfl rfl (by decide)
    (fun _ _ => rfl)

theorem runLoop_all_fail (f : Flow) (llm : Nat → String → Option String)
    (inputs : Nat → String) (hs : f.stoppingTokenTruthy = false)
    (hd : f.dynamic_temperature = false) (hfail : ∀ k p, llm k p = none) :
    ∀ (fuel : Nat) (st : RunState),
      runLoop f llm inputs fuel st =
        .ok { st with
                calls := st.calls + fuel * f.retry_attempts
                history := st.history ++ List.replicate fuel st.response } := by
  intro fuel
  induction fuel with
  | zero => intro st; simp [runLoop]
  | succ n ih =>
    intro st
    rw [runLoop, hs]
    simp only [Bool.false_and, Bool.false_eq_true, if_false, hd]
    rw [attemptLoop_all_fail f.interactive llm inputs _ hfail f.retry_attempts st, ih]
    have hc : st.calls + f.retry_attempts + n * f.retry_attempts =
        st.calls + (n + 1) * f.retry_attempts := by ring
    have hh : (st.history ++ [st.response]) ++ List.replicate n st.response =
        st.history ++ List.replicate (n + 1) st.response := by
      simp [List.replicate_succ]
    rw [hc, hh]

/-- C2 (counterexample): with `retry_attempts = 2`, `max_loops = 1` and a
model whose every call raises, `run` returns normally (`.ok`, no
`ModelInvocationError` or any other exception reaches the caller), makes
both attempts, and the iteration still appends the stale previous response
`"t"` to the history. -/
theorem run_exhausted_retries_no_exception :
    ((({ flowBase with max_loops := 1, retry_attempts := 2 } : Flow).run llmFail inputsNone "t").map
        (fun (o : Flow × RunState) => (o.2.history, o.2.calls))) =
      Except.ok ((["Human: t", "t"], 2) : List String × Nat) :=
  rfl

/-- C2 (amended): when all `retryAttempts` attempts of a model invocation
fail, no exception is raised to the caller: the retry loop falls through,
the iteration appends the stale previous `response` value to the history,
and the outer loop continues to the next iteration up to `maxLoops`.  With
every call failing, `run` returns `.ok`, makes `maxLoops · retryAttempts`
invocations, leaves `response = task`, and the history is the seed turn
followed by `maxLoops` copies of the stale `task`. -/
theorem run_exhausted_retries_continues_loop (f : Flow)
    (llm : Nat → String → Option String) (inputs : Nat → String) (task : String)
    (hs : f.stopping_token = none) (hd : f.dynamic_temperature = false)
    (hfail : ∀ k p, llm k p = none) :
    f.run llm inputs task =
      .ok ({ f with memory := f.memory ++
                [(f.user_name ++ ": " ++ task) :: List.replicate f.max_loops task] },
        { response := task
          history := (f.user_name ++ ": " ++ task) :: List.replicate f.max_loops task
          calls := f.max_loops * f.retry_attempts
          inputsUsed := 0 }) := by
  have hs' : f.stoppingTokenTruthy = false := by
    simp [Flow.stoppingTokenTruthy, hs]
  rw [Flow.run, runLoop_all_fail f llm inputs hs' hd hfail]
  simp only [Except.map, Nat.zero_add, List.cons_append, List.nil_append]

/-- C2 (witness): the amended statement instantiated at `max_loops = 2`,
`retry_attempts = 3` with the always-failing model. -/
theorem run_exhausted_retries_continues_loop_witness :
    ({ flowBase with max_loops := 2, retry_attempts := 3 } : Flow).run llmFail inputsNone "t" =
      .ok ({ ({ flowBase with max_loops := 2, retry_attempts := 3 } : Flow) with
                memory := ({ flowBase with max_loops := 2, retry_attempts := 3 } : Flow).memory ++
                  [("Human" ++ ": " ++ "t") :: List.replicate 2 "t"] },
        { response := "t"
          history := ("Human" ++ ": " ++ "t") :: List.replicate 2 "t"
          calls := 2 * 3
          inputsUsed := 0 }) :=
  run_exhausted_retries_continues_loop
    { flowBase with max_loops := 2, retry_attempts := 3 }
    llmFail inputsNone "t" rfl rfl (fun _ _ => rfl)

theorem runLoop_ignores_condition_without_token (f : Flow)
    (llm : Nat → String → Option String) (inputs : Nat → String)
    (hs : f.stoppingTokenTruthy = false) :
    ∀ (fuel : Nat) (st : RunState),
      runLoop f llm inputs fuel st =
        runLoop { f with stopping_condition := none } llm inputs fuel st := by
  intro fuel
  induction fuel with
  | zero => intro st; rfl
  | succ n ih =>
    intro st
    have hs2 : ({ f with stopping_condition := none } : Flow).stoppingTokenTruthy = false := hs
    rw [runLoop, runLoop, hs, hs2]
    simp only [Bool.false_and, Bool.false_eq_true, if_false]
    exact if_congr Iff.rfl rfl (ih _)

/-- C3 (counterexample): a `Flow` with a stopping predicate that is `true`
on every response but no stopping token, `max_loops = 2`, and an
always-successful model: the claim demands termination on the first
iteration before generating (0 model invocations), but `run` never consults
the predicate (the check is gated on `if self.stopping_token:`) and performs
2 invocations. -/
theorem run_predicate_without_token_ignored :
    ((({ flowBase with max_loops := 2, stopping_condition := some (fun _ => true) } : Flow).run
          llmOk inputsNone "t").map (fun (o : Flow × RunState) => o.2.calls)) =
      Except.ok 2 ∧ (2 : Nat) ≠ 0 :=
  ⟨rfl, by omega⟩

/-- C3 (amended): the stopping check runs only when `stopping_token` is
configured and truthy (a non-empty string).  In that case the loop
terminates before generating — zero model invocations — as soon as the
configured predicate returns `true` on the response or the literal
`"<DONE>"` occurs in it as a substring (the configured token's own text is
never matched).  When `stopping_token` is not truthy, neither mechanism is
consulted: `run` behaves exactly as if no stopping predicate were
configured, and the loop stops only via `maxLoops`. -/
theorem run_stop_gate_requires_token (f : Flow)
    (llm : Nat → String → Option String) (inputs : Nat → String) (task : String) :
    (f.stoppingTokenTruthy = true →
      (f.check_stopping_condition task || parse_done_token task) = true →
      f.run llm inputs task =
        .ok ({ f with memory := f.memory ++ [[f.user_name ++ ": " ++ task]] },
          { response := task
            history := [f.user_name ++ ": " ++ task]
            calls := 0
            inputsUsed := 0 })) ∧
    (f.stoppingTokenTruthy = false →
      (f.run llm inputs task).map (fun (o : Flow × RunState) => o.2) =
        (Flow.run { f with stopping_condition := none } llm inputs task).map
          (fun (o : Flow × RunState) => o.2)) := by
  constructor
  · intro ht hm
    rw [Flow.run]
    cases hml : f.max_loops with
    | zero => rfl
    | succ n =>
      rw [runLoop, ht, hm]
      rfl
  · intro hs
    rw [Flow.run, Flow.run,
      runLoop_ignores_condition_without_token f llm inputs hs f.max_loops]
    cases runLoop { f with stopping_condition := none } llm inputs f.max_loops
        { response := task
          history := [f.user_name ++ ": " ++ task]
          calls := 0
          inputsUsed := 0 } with
    | error e => rfl
    | ok st => rfl

/-- C3 (witness): with `stopping_token = "<X>"` (truthy) and the seed
response containing `"<DONE>"`, the loop stops before the first generation:
zero model invocations even though `max_loops = 2`; and with the token unset
the predicate is ignored. -/
theorem run_stop_gate_requires_token_witness :
    ({ flowBase with max_loops := 2, stopping_token := some "<X>" } : Flow).run
        llmOk inputsNone "a<DONE>" =
      .ok ({ ({ flowBase with max_loops := 2, stopping_token := some "<X>" } : Flow) with
                memory := ({ flowBase with max_loops := 2, stopping_token := some "<X>" } : Flow).memory ++
                  [["Human" ++ ": " ++ "a<DONE>"]] },
        { response := "a<DONE>"
          history := ["Human" ++ ": " ++ "a<DONE>"]
          calls := 0
          inputsUsed := 0 }) :=
  (run_stop_gate_requires_token
      { flowBase with max_loops := 2, stopping_token := some "<X>" }
      llmOk inputsNone "a<DONE>").1 (by decide) (by decide)

/-- C4: the claim describes the intended per-iteration temperature jitter,
but `Flow.__init__` stores the boolean flag in `self.dynamic_temperature`,
shadowing the method of the same name; with the flag enabled, the first loop
iteration of `run` evaluates `self.dynamic_temperature()` on a `bool` and
raises `TypeError` — the temperature is never set at all. -/
theorem run_dynamic_temperature_raises_type_error :
    ({ flowBase with max_loops := 1, dynamic_temperature := true } : Flow).run
        llmOk inputsNone "t" =
      Except.error PyException.typeError :=
  rfl

theorem collectCompleted_append (xs ys : List (Except PyException String)) :
    collectCompleted (xs ++ ys) = collectCompleted xs ++ collectCompleted ys := by
  induction xs with
  | nil => rfl
  | cons x rest ih =>
    cases x with
    | ok r => simp [collectCompleted, ih]
    | error e => simp [collectCompleted, ih]

theorem mem_collectCompleted_of_ok (l : List (Except PyException String)) (r : String)
    (h : Except.ok r ∈ l) : r ∈ collectCompleted l := by
  induction l with
  | nil => cases h
  | cons x rest ih =>
    cases h with
    | head => exact List.mem_cons_self r _
    | tail _ hmem =>
      cases x with
      | ok s => exact List.mem_cons_of_mem s (ih hmem)
      | error e => exact ih hmem

/-- A two-capability swarm whose first member raises and whose second
returns `"B"`. -/
def gmTwo : GodMode :=
  GodMode.init [fun _ => .error (.exn "boom"), fun _ => .ok "B"] false 3

/-- C5 (counterexample): on a membership where the first capability raises
and the second returns `"B"` (futures completing in submission order),
`concurrent_run` returns `["B"]`: the raising capability has no entry at all
— the error is printed and swallowed, not captured as that capability's slot
— so the result has 1 entry for 2 members. -/
theorem concurrent_run_failure_entry_omitted :
    (gmTwo.concurrent_run (gmTwo.llms.map (fun llm => llm "t")) "t").2 = ["B"] ∧
      (gmTwo.concurrent_run (gmTwo.llms.map (fun llm => llm "t")) "t").2.length ≠
        gmTwo.llms.length :=
  ⟨rfl, by decide⟩

/-- C5 (amended): in `concurrent_run`, a capability that raises is *omitted*
from the returned response list (its exception is printed and discarded, not
recorded as an entry); the failure does not abort the aggregation — every
successful capability's response is still collected, in completion order.
Formally, for any completion order containing an erroring future, the
responses are exactly those collected from the remaining futures, and every
successful result is present. -/
theorem concurrent_run_drops_failures_keeps_successes (g : GodMode)
    (pre post : List (Except PyException String)) (e : PyException) (task : String) :
    (g.concurrent_run (pre ++ Except.error e :: post) task).2 =
        collectCompleted pre ++ collectCompleted post ∧
      ∀ r : String, Except.ok r ∈ pre ++ post →
        r ∈ (g.concurrent_run (pre ++ Except.error e :: post) task).2 := by
  have hmain : collectCompleted (pre ++ Except.error e :: post) =
      collectCompleted pre ++ collectCompleted post := by
    rw [collectCompleted_append]
    rfl
  constructor
  · exact hmain
  · intro r hr
    show r ∈ collectCompleted (pre ++ Except.error e :: post)
    rw [hmain]
    rcases List.mem_append.mp hr with h | h
    · exact List.mem_append.mpr (Or.inl (mem_collectCompleted_of_ok pre r h))
    · exact List.mem_append.mpr (Or.inr (mem_collectCompleted_of_ok post r h))

/-- C5 (witness): with one success before and one after the failing future,
the responses are `["A", "B"]` and the success `"A"` is present. -/
theorem concurrent_run_drops_failures_keeps_successes_witness :
    (gmTwo.concurrent_run ([Except.ok "A"] ++ Except.error (PyException.exn "boom") :: [Except.ok "B"]) "t").2 =
        collectCompleted [Except.ok "A"] ++ collectCompleted [Except.ok "B"] ∧
      "A" ∈ (gmTwo.concurrent_run ([Except.ok "A"] ++ Except.error (PyException.exn "boom") :: [Except.ok "B"]) "t").2 :=
  ⟨(concurrent_run_drops_failures_keeps_successes gmTwo [Except.ok "A"] [Except.ok "B"]
      (PyException.exn "boom") "t").1,
    (concurrent_run_drops_failures_keeps_successes gmTwo [Except.ok "A"] [Except.ok "B"]
      (PyException.exn "boom") "t").2 "A" (by simp)⟩

/-- C6 (counterexample): `save_state` writes no `max_loops` key, and
`load_state` restores `max_loops` with `state.get("max_loops", 5)`: loading
a freshly saved checkpoint into a `Flow` with `max_loops = 7` resets it to
the hardcoded default `5`, not its prior value. -/
theorem load_state_absent_field_gets_default :
    (({ flowBase with max_loops := 7 } : Flow).load_state
        (Flow.save_state { flowBase with max_loops := 7 })).max_loops = 5 ∧
      (5 : Nat) ≠ 7 :=
  ⟨rfl, by omega⟩

/-- C6 (amended): `load_state` replaces exactly `memory`, `max_loops`,
`loop_interval`, `retry_attempts`, `retry_interval` and `interactive`,
using the checkpoint's value when the key is present and the hardcoded
defaults `[]`, `5`, `1`, `3`, `1`, `False` — not the prior value — when the
key is absent; every other field (including `dashboard` and
`dynamic_temperature`, which `save_state` writes but `load_state` never
reads, and `stopping_token`/`stopping_condition`) keeps its pre-load
value. -/
theorem load_state_field_characterization (f : Flow) (doc : FlowStateDoc) :
    (f.load_state doc).memory = doc.memory.getD [] ∧
      (f.load_state doc).max_loops = doc.max_loops.getD 5 ∧
      (f.load_state doc).loop_interval = doc.loop_interval.getD 1 ∧
      (f.load_state doc).retry_attempts = doc.retry_attempts.getD 3 ∧
      (f.load_state doc).retry_interval = doc.retry_interval.getD 1 ∧
      (f.load_state doc).interactive = doc.interactive.getD false ∧
      (f.load_state doc).dashboard = f.dashboard ∧
      (f.load_state doc).dynamic_temperature = f.dynamic_temperature ∧
      (f.load_state doc).stopping_token = f.stopping_token ∧
      (f.load_state doc).stopping_condition = f.stopping_condition ∧
      (f.load_state doc).return_history = f.return_history ∧
      (f.load_state doc).user_name = f.user_name ∧
      (f.load_state doc).response_filters = f.response_filters ∧
      (f.load_state doc).reponse_filters = f.reponse_filters :=
  ⟨rfl, rfl, rfl, rfl, rfl, rfl, rfl, rfl, rfl, rfl, rfl, rfl, rfl, rfl⟩

/-- C7: the checkpoint round trip `load_state(save_state(f))` restores
`memory` to an equal sequence of sessions/turns and leaves the five scalar
config fields `loop_interval`, `retry_attempts`, `retry_interval`,
`interactive`, `dynamic_temperature` at their pre-save values
(`dynamic_temperature` because `load_state` never touches it, the other four
because `save_state` recorded them). -/
theorem save_state_load_state_round_trip (f : Flow) :
    (f.load_state f.save_state).memory = f.memory ∧
      (f.load_state f.save_state).loop_interval = f.loop_interval ∧
      (f.load_state f.save_state).retry_attempts = f.retry_attempts ∧
      (f.load_state f.save_state).retry_interval = f.retry_interval ∧
      (f.load_state f.save_state).interactive = f.interactive ∧
      (f.load_state f.save_state).dynamic_temperature = f.dynamic_temperature :=
  ⟨rfl, rfl, rfl, rfl, rfl, rfl⟩

/-- C8: `undo_last` with fewer than two recorded sessions returns the
`(None, None)` nothing-to-undo signal and leaves `memory` (the whole `Flow`)
unchanged; with two or more sessions — `memory = ms ++ [s₁, s₂]` — and the
previous session `s₁` non-empty with final turn `p`, it removes exactly the
most recent session (`memory` becomes `ms ++ [s₁]`) and returns `p` together
with the `"Restored to p"` message. -/
theorem undo_last_behavior (f : Flow) :
    (f.memory.length < 2 → f.undo_last = (f, Except.ok (none, none))) ∧
      ∀ (ms : List (List String)) (s1 s2 : List String) (p : String),
        f.memory = ms ++ [s1, s2] → s1.getLast? = some p →
        f.undo_last =
          ({ f with memory := ms ++ [s1] },
            Except.ok (some p, some ("Restored to " ++ p))) := by
  constructor
  · intro h
    rw [Flow.undo_last, if_pos h]
  · intro ms s1 s2 p hmem hlast
    have hlen : ¬ f.memory.length < 2 := by
      rw [hmem]
      simp
    have hdrop : f.memory.dropLast = ms ++ [s1] := by
      have : f.memory = (ms ++ [s1]) ++ [s2] := by
        rw [hmem, List.append_assoc]
        rfl
      rw [this, List.dropLast_concat]
    have hget : (ms ++ [s1]).getLast? = some s1 := List.getLast?_concat _
    rw [Flow.undo_last, if_neg hlen, hdrop, hget]
    simp only [hlast]

/-- C8 (witness): a `Flow` with one (empty list of) session is a no-op, and
one with sessions `[["a"], ["b"]]` pops the last and returns `"a"`. -/
theorem undo_last_behavior_witness :
    flowBase.undo_last = (flowBase, Except.ok (none, none)) ∧
      ({ flowBase with memory := [["a"], ["b"]] } : Flow).undo_last =
        ({ ({ flowBase with memory := [["a"], ["b"]] } : Flow) with memory := [] ++ [["a"]] },
          Except.ok (some "a", some ("Restored to " ++ "a"))) :=
  ⟨(undo_last_behavior flowBase).1 (by decide),
    (undo_last_behavior { flowBase with memory := [["a"], ["b"]] }).2
      [] ["a"] ["b"] "a" rfl rfl⟩

theorem collectFutures_eq_runAllAux (task : String) :
    ∀ ls : List (String → Except PyException String),
      collectFutures (ls.map fun llm => llm task) = runAllAux task ls := by
  intro ls
  induction ls with
  | nil => rfl
  | cons llm rest ih =>
    simp only [List.map_cons, runAllAux]
    cases llm task with
    | error e => rfl
    | ok r => rw [collectFutures, ih]

theorem runAllAux_ok_aligned (task : String) :
    ∀ (ls : List (String → Except PyException String)) (rs : List String),
      runAllAux task ls = .ok rs →
      rs.length = ls.length ∧
        ∀ (i : Nat) (h1 : i < rs.length) (h2 : i < ls.length),
          (ls.get ⟨i, h2⟩) task = Except.ok (rs.get ⟨i, h1⟩) := by
  intro ls
  induction ls with
  | nil =>
    intro rs h
    cases h
    exact ⟨rfl, fun i h1 h2 => absurd h2 (Nat.not_lt_zero i)⟩
  | cons llm rest ih =>
    intro rs h
    rw [runAllAux] at h
    cases hcall : llm task with
    | error e => rw [hcall] at h; cases h
    | ok r =>
      rw [hcall] at h
      cases hrest : runAllAux task rest with
      | error e => rw [hrest] at h; cases h
      | ok rs' =>
        rw [hrest] at h
        have hrs : rs = r :: rs' := by
          cases h
          rfl
        obtain ⟨hlen, halign⟩ := ih rs' hrest
        subst hrs
        refine ⟨by simpa using hlen, ?_⟩
        intro i h1 h2
        cases i with
        | zero => exact hcall
        | succ j =>
          exact halign j (Nat.lt_of_succ_lt_succ h1) (Nat.lt_of_succ_lt_succ h2)

/-- C9: `GodMode.run(task)` (the `executor.map` broadcast, which yields
results in submission order) agrees with the sequential `run_all`; and when
it succeeds, the returned list has exactly one entry per held capability,
index-aligned: the `i`-th capability applied to `task` yields exactly the
`i`-th response. -/
theorem godmode_run_submission_order (g : GodMode) (task : String) :
    g.run task = g.run_all task ∧
      ∀ rs : List String, g.run task = Except.ok rs →
        rs.length = g.llms.length ∧
          ∀ (i : Nat) (h1 : i < rs.length) (h2 : i < g.llms.length),
            (g.llms.get ⟨i, h2⟩) task = Except.ok (rs.get ⟨i, h1⟩) := by
  constructor
  · exact collectFutures_eq_runAllAux task g.llms
  · intro rs h
    rw [GodMode.run, collectFutures_eq_runAllAux task g.llms] at h
    exact runAllAux_ok_aligned task g.llms rs h

/-- A two-capability swarm whose members tag the task with `A:`/`B:`. -/
def gmNine : GodMode :=
  GodMode.init [fun t => .ok ("A:" ++ t), fun t => .ok ("B:" ++ t)] false 3

/-- C9 (witness): over the swarm `[A, B]`, `run` equals `run_all`, returns
`["A:t", "B:t"]` in submission order, and entry 0 is capability 0 applied to
the task. -/
theorem godmode_run_submission_order_witness :
    gmNine.run "t" = gmNine.run_all "t" ∧
      gmNine.run "t" = Except.ok ["A:t", "B:t"] ∧
      (gmNine.llms.get ⟨0, by decide⟩) "t" =
        Except.ok ((["A:t", "B:t"] : List String).get ⟨0, by decide⟩) :=
  ⟨(godmode_run_submission_order gmNine "t").1, rfl,
    ((godmode_run_submission_order gmNine "t").2 ["A:t", "B:t"] rfl).2 0
      (by decide) (by decide)⟩

/-- C10: `add_response_filter` appends to the misspelled attribute
`reponse_filters`, which `Flow.__init__` never creates (it initializes
`response_filters`) and which no modelled operation ever initializes either:
on every constructed `Flow` (and any `Flow` reachable from one) the call
raises `AttributeError` before mutating anything — the error return carries
no new state, so the `Flow` (including `response_filters`) is unchanged and
no filter can ever be registered through this operation.  The conjuncts:
the constructor leaves the attribute absent; an absent attribute makes
`add_response_filter` raise `AttributeError`; and `load_state`, `undo_last`
and `run` all preserve its absence. -/
theorem add_response_filter_always_attribute_error :
    (∀ (ml : Nat) (sc : Option (String → Bool)) (li ra ri : Nat) (rh : Bool)
        (stk : Option String) (ia db dt : Bool) (un : String),
        (Flow.init ml sc li ra ri rh stk ia db dt un).reponse_filters = none) ∧
      (∀ (f : Flow) (w : String), f.reponse_filters = none →
        f.add_response_filter w = Except.error PyException.attributeError) ∧
      (∀ (f : Flow) (doc : FlowStateDoc),
        (f.load_state doc).reponse_filters = f.reponse_filters) ∧
      (∀ f : Flow, f.undo_last.1.reponse_filters = f.reponse_filters) ∧
      (∀ (f : Flow) (llm : Nat → String → Option String) (inputs : Nat → String)
          (task : String) (out : Flow × RunState),
        f.run llm inputs task = Except.ok out →
        out.1.reponse_filters = f.reponse_filters) := by
  refine ⟨fun _ _ _ _ _ _ _ _ _ _ _ => rfl, ?_, fun _ _ => rfl, ?_, ?_⟩
  · intro f w h
    rw [Flow.add_response_filter, h]
  · intro f
    rw [Flow.undo_last]
    split
    · rfl
    · split
      · rfl
      · split <;> rfl
  · intro f llm inputs task out h
    rw [Flow.run] at h
    cases hrl : runLoop f llm inputs f.max_loops
        { response := task
          history := [f.user_name ++ ": " ++ task]
          calls := 0
          inputsUsed := 0 } with
    | error e => rw [hrl] at h; cases h
    | ok st =>
      rw [hrl] at h
      cases h
      rfl

/-- C10 (witness): on a constructor-built `Flow`, `add_response_filter`
raises `AttributeError`. -/
theorem add_response_filter_always_attribute_error_witness :
    flowBase.reponse_filters = none ∧
      flowBase.add_response_filter "Trump" = Except.error PyException.attributeError :=
  ⟨add_response_filter_always_attribute_error.1 5 none 1 3 1 false none false false false "Human",
    add_response_filter_always_attribute_error.2.1 flowBase "Trump" rfl⟩

end Swarms
